import Mathlib

/-!
Shallow embedding of the SnapOSLocationTools repository (Snap Spectacles
location UI components) and proofs about the claims regarding it.

Numeric fields of the TypeScript sources are modelled as rationals; the
code performs only assignment, comparison with zero and sign inversion on
them, so rationals are a faithful model. Strings are modelled as Lean
strings. Asynchronous callback structure is modelled as explicit state
passing and, for the scheduling claims, as a small step relation.
-/

namespace SnapOSLocationTools

/-! ## Secondary source: MobileKitManager (src/Assets/Scripts/MobileKitManager.ts)

The class properties latitude/longitude/horizontalAccuracy/altitude/
verticalAccuracy (lines 31-35), all initialised to 0.
-/

structure MobileKitReading where
  latitude : ℚ
  longitude : ℚ
  horizontalAccuracy : ℚ
  altitude : ℚ
  verticalAccuracy : ℚ
deriving DecidableEq, Repr

def MobileKitReading.init : MobileKitReading :=
  { latitude := 0, longitude := 0, horizontalAccuracy := 0, altitude := 0
    verticalAccuracy := 0 }

/-- Inbound gps-location payload: an object whose five numeric keys are each
optionally present (the topic key is ignored by the code). -/
structure GPSLocationPayload where
  latitude : Option ℚ
  longitude : Option ℚ
  horizontal_accuracy : Option ℚ
  altitude : Option ℚ
  vertical_accuracy : Option ℚ
deriving DecidableEq, Repr

/-- The field-application block of the subscription callback
(MobileKitManager.ts lines 108-123): each class property is assigned only
when the corresponding payload key is defined. -/
def applyGPSLocationPayload (r : MobileKitReading) (d : GPSLocationPayload) :
    MobileKitReading :=
  let r := match d.latitude with
    | some v => { r with latitude := v }
    | none => r
  let r := match d.longitude with
    | some v => { r with longitude := v }
    | none => r
  let r := match d.horizontal_accuracy with
    | some v => { r with horizontalAccuracy := v }
    | none => r
  let r := match d.altitude with
    | some v => { r with altitude := v }
    | none => r
  let r := match d.vertical_accuracy with
    | some v => { r with verticalAccuracy := v }
    | none => r
  r

/-- Result of JSON.parse on the inbound response string: either a payload
object or a thrown parse error. -/
inductive GPSParseResult
  | ok (locationData : GPSLocationPayload)
  | err (error : String)
deriving DecidableEq, Repr

/-- The try/catch body of the subscription callback (MobileKitManager.ts
lines 104-129). Returns the reading after the message, the error log lines
emitted, and whether newMobileKitDataAvailable was reached. On a parse
failure the catch block only prints; no property is assigned. -/
def handleGPSLocationResponse (r : MobileKitReading) (parsed : GPSParseResult) :
    MobileKitReading × List String × Bool :=
  match parsed with
  | .ok locationData => (applyGPSLocationPayload r locationData, [], true)
  | .err error =>
      (r, ["startGPSLocationSubscription() - Error parsing GPS location data: "
            ++ error], false)

end SnapOSLocationTools

namespace SnapOSLocationTools

/-! ## Primary source: LocationManager (src/Assets/Scripts/LocationManager.ts)

Class properties, lines 32-38: locationSource initialised to the empty
string, the six numeric fields initialised to 0.
-/

structure LocationReading where
  locationSource : String
  latitude : ℚ
  longitude : ℚ
  horizontalAccuracy : ℚ
  altitude : ℚ
  verticalAccuracy : ℚ
  heading : ℚ
deriving DecidableEq, Repr

def LocationReading.init : LocationReading :=
  { locationSource := "", latitude := 0, longitude := 0
    horizontalAccuracy := 0, altitude := 0, verticalAccuracy := 0
    heading := 0 }

/-- The GeoPosition delivered by the location service. The SDK object also
carries a heading attribute; the success callback of processGeoPosition reads
only the first six fields and never reads the heading. -/
structure GeoPosition where
  locationSource : String
  latitude : ℚ
  longitude : ℚ
  horizontalAccuracy : ℚ
  altitude : ℚ
  verticalAccuracy : ℚ
  heading : ℚ
deriving DecidableEq, Repr

/-- The success callback of getCurrentPosition (LocationManager.ts lines
92-103): six sequential property assignments; heading is not assigned. -/
def applyGeoPosition (r : LocationReading) (geoPosition : GeoPosition) :
    LocationReading :=
  let r := { r with locationSource := geoPosition.locationSource }
  let r := { r with latitude := geoPosition.latitude }
  let r := { r with longitude := geoPosition.longitude }
  let r := { r with horizontalAccuracy := geoPosition.horizontalAccuracy }
  let r := { r with altitude := geoPosition.altitude }
  let r := { r with verticalAccuracy := geoPosition.verticalAccuracy }
  r

/-- The success path of processGeoPosition: assigns the six fields, then
calls newLocationManagerDataAvailable. Returns the updated reading together
with the reading observed at the moment of the notification. -/
def processGeoSuccess (r : LocationReading) (geoPosition : GeoPosition) :
    LocationReading × LocationReading :=
  let updated := applyGeoPosition r geoPosition
  (updated, updated)

/-- The error path of processGeoPosition (lines 104-106): a single print,
no property assignment. Returns the reading and the log lines emitted. -/
def processGeoError (r : LocationReading) (error : String) :
    LocationReading × List String :=
  (r, ["processGeoPosition() error: " ++ error])

/-! ### Scheduling model for the periodic position pull

processGeoPosition (lines 87-111) calls the asynchronous
locationService.getCurrentPosition and then, still in the same synchronous
body, calls repeatProcessGeoPositionEvent.reset(1.0). The timer is therefore
re-armed when the pull is initiated, not when its callback resolves. The
state below tracks the armed timer and the number of in-flight fetches;
events are a timer expiry (which runs processGeoPosition) and the platform
resolving one in-flight fetch with success or failure.
-/

structure PrimSchedState where
  reading : LocationReading
  timerArmed : Bool
  pendingFetches : Nat
deriving DecidableEq, Repr

/-- State after configureLocationManager: the event is bound and reset(0.0)
arms the timer; no fetch is in flight yet. -/
def primInit : PrimSchedState :=
  { reading := LocationReading.init, timerArmed := true, pendingFetches := 0 }

inductive PrimEvent
  | timerFire
  | fetchSuccess (geoPosition : GeoPosition)
  | fetchError (error : String)
deriving DecidableEq, Repr

/-- One scheduler step. timerFire runs processGeoPosition: it issues a fetch
(pendingFetches increases) and re-arms the timer synchronously via
reset(1.0), with no regard to whether earlier fetches have resolved.
fetchSuccess and fetchError resolve one in-flight fetch. -/
def primStep (s : PrimSchedState) (e : PrimEvent) : PrimSchedState :=
  match e with
  | .timerFire =>
      if s.timerArmed then
        { s with pendingFetches := s.pendingFetches + 1, timerArmed := true }
      else s
  | .fetchSuccess geoPosition =>
      if 0 < s.pendingFetches then
        { s with reading := applyGeoPosition s.reading geoPosition
                 pendingFetches := s.pendingFetches - 1 }
      else s
  | .fetchError _ =>
      if 0 < s.pendingFetches then
        { s with pendingFetches := s.pendingFetches - 1 }
      else s

def primRun (s : PrimSchedState) (es : List PrimEvent) : PrimSchedState :=
  es.foldl primStep s

/-! ## Compact panel: HandLockedUIContentManager
(src/Assets/Scripts/HandLockedUIContentManager.ts)

The five GPS status images are modelled as optional enabled flags: none
stands for an unconfigured image input, some b for a configured image whose
scene object has enabled flag b.
-/

/-- LocationManager.getShortLocationSource (LocationManager.ts lines
172-187): the switch over the source string. -/
def getShortLocationSource (locationSource : String) : String :=
  if locationSource = "NOT_AVAILABLE" then "Not available"
  else if locationSource = "GNSS_RECEIVER" then "GNSS / GPS"
  else if locationSource = "WIFI_POSITIONING_SYSTEM" then "WiFi"
  else if locationSource = "FUSED_LOCATION" then "Fused"
  else if locationSource = "" then "Unknown"
  else "Unknown"

inductive IconSlot
  | white
  | red
  | blue
  | yellow
  | green
deriving DecidableEq, Repr

structure GPSStatusImages where
  white : Option Bool
  red : Option Bool
  blue : Option Bool
  yellow : Option Bool
  green : Option Bool
deriving DecidableEq, Repr

def GPSStatusImages.get (im : GPSStatusImages) : IconSlot → Option Bool
  | .white => im.white
  | .red => im.red
  | .blue => im.blue
  | .yellow => im.yellow
  | .green => im.green

/-- Assign sceneObject.enabled of the image in the given slot, when that
image is configured. -/
def GPSStatusImages.set (im : GPSStatusImages) (slot : IconSlot) (b : Bool) :
    GPSStatusImages :=
  match slot with
  | .white => { im with white := im.white.map (fun _ => b) }
  | .red => { im with red := im.red.map (fun _ => b) }
  | .blue => { im with blue := im.blue.map (fun _ => b) }
  | .yellow => { im with yellow := im.yellow.map (fun _ => b) }
  | .green => { im with green := im.green.map (fun _ => b) }

/-- One guarded statement of disableAllGPSStatusImages: disable the image
and record the visibility write only when the image is configured. -/
def disableIf (st : GPSStatusImages × List (IconSlot × Bool)) (slot : IconSlot) :
    GPSStatusImages × List (IconSlot × Bool) :=
  if (st.1.get slot).isSome then (st.1.set slot false, st.2 ++ [(slot, false)])
  else st

/-- disableAllGPSStatusImages (HandLockedUIContentManager.ts lines 108-114):
five null-guarded disables, in source order. Also returns the list of
icon-visibility writes performed. -/
def disableAllGPSStatusImages (im : GPSStatusImages) :
    GPSStatusImages × List (IconSlot × Bool) :=
  disableIf (disableIf (disableIf (disableIf (disableIf (im, [])
    .white) .red) .blue) .yellow) .green

/-- getGPSStatusImage (lines 159-174): the switch selecting which status
image corresponds to a location source, defaulting to white. -/
def getGPSStatusImage (locationSource : String) : IconSlot :=
  if locationSource = "" then .white
  else if locationSource = "NOT_AVAILABLE" then .red
  else if locationSource = "GNSS_RECEIVER" then .blue
  else if locationSource = "WIFI_POSITIONING_SYSTEM" then .yellow
  else if locationSource = "FUSED_LOCATION" then .green
  else .white

structure StatusIndicatorState where
  lastLocationSource : String
  images : GPSStatusImages
deriving DecidableEq, Repr

/-- Initial value of the private lastLocationSource field (line 58). -/
def lastLocationSourceInit : String := ""

/-- updateGPSStatusIndicator (lines 82-103). The locationManager argument is
none when the manager input is unconfigured, some src when it reports source
src. Returns the new state and the icon-visibility writes performed. -/
def updateGPSStatusIndicator (locationManager : Option String)
    (st : StatusIndicatorState) :
    StatusIndicatorState × List (IconSlot × Bool) :=
  match locationManager with
  | none => (st, [])
  | some currentLocationSource =>
      if currentLocationSource = st.lastLocationSource then (st, [])
      else
        let im1 := (disableAllGPSStatusImages st.images).1
        let writes := (disableAllGPSStatusImages st.images).2
        let slot := getGPSStatusImage currentLocationSource
        if (im1.get slot).isSome then
          ({ lastLocationSource := currentLocationSource
             images := im1.set slot true }, writes ++ [(slot, true)])
        else
          ({ lastLocationSource := currentLocationSource, images := im1 },
           writes)

/-- Iterated frame ticks of the status-indicator part of onUpdate, with the
accumulated icon-visibility writes. -/
def iterateGPSStatusUpdates (locationManager : Option String) :
    Nat → StatusIndicatorState → StatusIndicatorState × List (IconSlot × Bool)
  | 0, st => (st, [])
  | n + 1, st =>
      let first := updateGPSStatusIndicator locationManager st
      let rest := iterateGPSStatusUpdates locationManager n first.1
      (rest.1, first.2 ++ rest.2)

def allWired (im : GPSStatusImages) : Prop :=
  im.white.isSome ∧ im.red.isSome ∧ im.blue.isSome ∧ im.yellow.isSome ∧
    im.green.isSome

def enabledIconCount (im : GPSStatusImages) : Nat :=
  ([im.white, im.red, im.blue, im.yellow, im.green].filter
    (fun o => o == some true)).length

/-! ## Detailed panel: FloatingDetailsUIContentManager
(src/unnamed/part_001)

The map surface is modelled as the list of pins created by this component
together with a fresh-id counter; the private mobileKitPin field is the
optional handle of the current pin. The hasMapComponent flag models whether
the mapComponent input is configured.
-/

structure Vec4 where
  x : ℚ
  y : ℚ
  z : ℚ
  w : ℚ
deriving DecidableEq, Repr

structure MapPin where
  id : Nat
  longitude : ℚ
  latitude : ℚ
deriving DecidableEq, Repr

structure MapState where
  nextId : Nat
  pins : List MapPin
deriving DecidableEq, Repr

/-- mapComponent.createMapPin: puts a fresh pin at the given coordinates and
returns its handle. -/
def createMapPin (m : MapState) (longitude latitude : ℚ) : MapPin × MapState :=
  let p : MapPin := { id := m.nextId, longitude := longitude
                      latitude := latitude }
  (p, { nextId := m.nextId + 1, pins := m.pins ++ [p] })

/-- mapComponent.removeMapPin: removes the pin with the given handle. -/
def removeMapPin (m : MapState) (p : MapPin) : MapState :=
  { m with pins := m.pins.filter (fun q => q.id != p.id) }

structure PinContext where
  hasMapComponent : Bool
  mobileKitPin : Option MapPin
  map : MapState
deriving DecidableEq, Repr

/-- removeMobileKitPin (part_001 lines 157-162): removes the pin and clears
the reference when the reference is non-null and mapComponent is set. -/
def removeMobileKitPin (c : PinContext) : PinContext :=
  match c.mobileKitPin with
  | some p =>
      if c.hasMapComponent then
        { c with mobileKitPin := none, map := removeMapPin c.map p }
      else c
  | none => c

/-- Ambient environment of the detailed panel: the editor check and the
enabled flag of mobileKitManagerSceneObject. -/
structure DisplayEnv where
  isEditor : Bool
  mobileKitEnabled : Bool
deriving DecidableEq, Repr

/-- updateMobileKitPin (part_001 lines 131-152): early return without a map
component; the same 4-way branch as the text update; in the active branch an
existing pin is removed unconditionally and a new one is created at the
current mobile kit coordinates. -/
def updateMobileKitPin (env : DisplayEnv) (mk : MobileKitReading)
    (c : PinContext) : PinContext :=
  if !c.hasMapComponent then c
  else if env.isEditor then removeMobileKitPin c
  else if !env.mobileKitEnabled then removeMobileKitPin c
  else if mk.latitude = 0 ∧ mk.longitude = 0 then removeMobileKitPin c
  else
    let c1 :=
      match c.mobileKitPin with
      | some p => { c with mobileKitPin := none, map := removeMapPin c.map p }
      | none => c
    let pm := createMapPin c1.map mk.longitude mk.latitude
    { c1 with mobileKitPin := some pm.1, map := pm.2 }

/-- Number.toFixed(digits) of the scripts, on rationals: round to the given
number of decimals (ties to the larger value, as ECMA ToFixed picks the
larger candidate) and render with exactly that many fraction digits. -/
def toFixed (x : ℚ) (digits : Nat) : String :=
  let scaled : ℤ := round (x * (10 : ℚ) ^ digits)
  let a : Nat := scaled.natAbs
  let intPart : Nat := a / 10 ^ digits
  let fracPart : Nat := a % 10 ^ digits
  let sign : String := if scaled < 0 then "-" else ""
  if digits = 0 then sign ++ toString intPart
  else
    let fs := toString fracPart
    sign ++ toString intPart ++ "." ++
      String.mk (List.replicate (digits - fs.length) '0') ++ fs

/-- The five-field mobile kit text of the active branch (part_001 lines
115-120). -/
def mobileKitDataText (mk : MobileKitReading) : String :=
  "Latitude: " ++ toFixed mk.latitude 6 ++
  "\nLongitude: " ++ toFixed mk.longitude 6 ++
  "\nHorizontal Accuracy: " ++ toFixed mk.horizontalAccuracy 0 ++ "m" ++
  "\nAltitude: " ++ toFixed mk.altitude 0 ++ "m" ++
  "\nVertical Accuracy: " ++ toFixed mk.verticalAccuracy 0 ++ "m"

/-- vec4(0.5, 0.5, 0.5, 1), the light grey tint. -/
def lightGreyColor : Vec4 := { x := 1/2, y := 1/2, z := 1/2, w := 1 }

/-- vec4(1, 1, 1, 1), the white tint. -/
def whiteTextColor : Vec4 := { x := 1, y := 1, z := 1, w := 1 }

/-- What updateMobileKitText writes to the UI: the mobileKitText string, the
inactive flag of startMobileKitButton and the tint of its text. -/
structure MobileKitTextOutcome where
  mobileKitText : String
  startMobileKitButtonInactive : Bool
  startMobileKitButtonTextColor : Vec4
deriving DecidableEq, Repr

/-- updateMobileKitText (part_001 lines 98-125): the 4-way branch, evaluated
fresh on every refresh of the detailed panel. -/
def updateMobileKitText (env : DisplayEnv) (mk : MobileKitReading)
    (c : PinContext) : MobileKitTextOutcome × PinContext :=
  if env.isEditor then
    ({ mobileKitText := "Mobile Kit unavailable in editor"
       startMobileKitButtonInactive := true
       startMobileKitButtonTextColor := lightGreyColor },
     removeMobileKitPin c)
  else if !env.mobileKitEnabled then
    ({ mobileKitText := "Mobile Kit available on device"
       startMobileKitButtonInactive := false
       startMobileKitButtonTextColor := whiteTextColor },
     removeMobileKitPin c)
  else if mk.latitude = 0 ∧ mk.longitude = 0 then
    ({ mobileKitText := "No Mobile Kit data"
       startMobileKitButtonInactive := true
       startMobileKitButtonTextColor := lightGreyColor },
     removeMobileKitPin c)
  else
    ({ mobileKitText := mobileKitDataText mk
       startMobileKitButtonInactive := false
       startMobileKitButtonTextColor := lightGreyColor },
     updateMobileKitPin env mk c)

/-- Invariant tying the private pin reference to the map surface: the map
holds exactly the pins referenced, their ids are below the fresh counter,
and a pin can only exist when the map component is configured. -/
def PinInv (c : PinContext) : Prop :=
  c.map.pins = c.mobileKitPin.toList ∧
  (∀ p ∈ c.map.pins, p.id < c.map.nextId) ∧
  (c.mobileKitPin.isSome → c.hasMapComponent = true)

/-! ## Null-wiring behaviour of operations using referenced display elements

Each operation is modelled on its referenced element inputs: none stands for
an unconfigured input reference. The result records whether the operation
ran, was skipped behind a null check (with or without a warning log), or
dereferenced the missing element.
-/

inductive UIOpResult
  | performed
  | skippedWithWarning
  | skippedSilently
  | nullDeref
deriving DecidableEq, Repr

/-- LocationManager.newLocationManagerDataAvailable (LocationManager.ts
lines 150-153): guarded by a null check; the skip branch logs nothing. -/
def newLocationManagerDataAvailableOp
    (floatingDetailsUIContentManager : Option Unit) : UIOpResult :=
  match floatingDetailsUIContentManager with
  | some _ => .performed
  | none => .skippedSilently

/-- MobileKitManager.newMobileKitDataAvailable (MobileKitManager.ts line
146): calls updateContent on the referenced manager with no null check. -/
def newMobileKitDataAvailableOp
    (floatingDetailsUIContentManager : Option Unit) : UIOpResult :=
  match floatingDetailsUIContentManager with
  | some _ => .performed
  | none => .nullDeref

/-- FloatingDetailsUIContentManager.updateMobileKitText (part_001 lines
98-125): assigns this.mobileKitText.text with no null check on the text
element (nor on the button or button-text references). -/
def updateMobileKitTextOp (mobileKitText : Option Unit) : UIOpResult :=
  match mobileKitText with
  | some _ => .performed
  | none => .nullDeref

/-- FloatingDetailsUIContentManager.updateLocationText (part_001 lines
78-91): returns early when the manager or the text element is missing,
without a log. -/
def updateLocationTextOp (locationManager locationDataText : Option Unit) :
    UIOpResult :=
  match locationManager, locationDataText with
  | some _, some _ => .performed
  | _, _ => .skippedSilently

/-- HandLockedUIPresentationManager.positionUI (part_000 lines 79-107):
guarded by a null check with a warning print. -/
def positionUIOp (handLockedUIBackPlate : Option Unit) : UIOpResult :=
  match handLockedUIBackPlate with
  | some _ => .performed
  | none => .skippedWithWarning

/-- HandLockedUIPresentationManager.detailsButtonPressed (part_000 lines
133-141): the frame is null-checked with a warning, but inside the guarded
branch the content manager is dereferenced without a check. -/
def detailsButtonPressedOp
    (floatingDetailsUIFrame floatingDetailsUIContentManager : Option Unit) :
    UIOpResult :=
  match floatingDetailsUIFrame with
  | none => .skippedWithWarning
  | some _ =>
      match floatingDetailsUIContentManager with
      | some _ => .performed
      | none => .nullDeref

/-- FloatingDetailsUIPresentationManager.closeButtonPressed (second class of
the LocationManager source file, lines 209-216): guarded by a null check
with a warning print. -/
def closeButtonPressedOp (floatingDetailsUIFrame : Option Unit) : UIOpResult :=
  match floatingDetailsUIFrame with
  | some _ => .performed
  | none => .skippedWithWarning

/-- FloatingDetailsUIContentManager.updateMobileKitPin (part_001 lines
131-152): returns early when mapComponent is missing, without a log. -/
def updateMobileKitPinOp (mapComponent : Option Unit) : UIOpResult :=
  match mapComponent with
  | some _ => .performed
  | none => .skippedSilently

/-! ## Claim C1 -/

/-- C1: for every prior reading and every subset of the five optional numeric
fields present in an inbound payload, applying the message updates exactly the
fields present and leaves every absent field at its prior value; and the
concrete scenario latitude/longitude/horizontal_accuracy followed by altitude
yields those four fields populated with vertical accuracy still 0. -/
theorem C1_sparse_field_application :
    (∀ (r : MobileKitReading) (d : GPSLocationPayload),
      (applyGPSLocationPayload r d).latitude = d.latitude.getD r.latitude ∧
      (applyGPSLocationPayload r d).longitude = d.longitude.getD r.longitude ∧
      (applyGPSLocationPayload r d).horizontalAccuracy
        = d.horizontal_accuracy.getD r.horizontalAccuracy ∧
      (applyGPSLocationPayload r d).altitude = d.altitude.getD r.altitude ∧
      (applyGPSLocationPayload r d).verticalAccuracy
        = d.vertical_accuracy.getD r.verticalAccuracy) ∧
    applyGPSLocationPayload
      (applyGPSLocationPayload MobileKitReading.init
        { latitude := some (522175/10000), longitude := some (51696/10000),
          horizontal_accuracy := some (908/100), altitude := none,
          vertical_accuracy := none })
      { latitude := none, longitude := none, horizontal_accuracy := none,
        altitude := some (1531/100), vertical_accuracy := none }
    = { latitude := 522175/10000, longitude := 51696/10000,
        horizontalAccuracy := 908/100, altitude := 1531/100,
        verticalAccuracy := 0 } := by
  constructor
  · intro r d
    refine ⟨?_, ?_, ?_, ?_, ?_⟩ <;>
      · unfold applyGPSLocationPayload
        cases d.latitude <;> cases d.longitude <;> cases d.horizontal_accuracy <;>
          cases d.altitude <;> cases d.vertical_accuracy <;> rfl
  · simp [applyGPSLocationPayload, MobileKitReading.init]

/-! ## Claim C3 -/

/-- C3 counterexample: the claim that the 1-unit timer for the next pull
starts only after the position-fetch callback resolves, so fetches never
overlap, is false. After a single timer expiry the timer is already re-armed
while the fetch is still in flight, and the concrete event trace
timerFire, timerFire reaches a state with two overlapping in-flight
fetches, refuting the no-overlap invariant. -/
theorem C3_counterexample_timer_rearmed_before_resolution :
    ((primStep primInit .timerFire).timerArmed = true ∧
     (primStep primInit .timerFire).pendingFetches = 1) ∧
    ¬ (∀ es : List PrimEvent, (primRun primInit es).pendingFetches ≤ 1) := by
  refine ⟨⟨rfl, rfl⟩, ?_⟩
  intro h
  have h2 := h [PrimEvent.timerFire, PrimEvent.timerFire]
  simp [primRun, primStep, primInit] at h2

/-- C3 amended: processGeoPosition re-arms the 1-unit timer synchronously in
the same invocation that initiates the position fetch, before the callback
resolves; resolution events leave the timer untouched, so under latency
longer than one unit fetches can overlap. -/
theorem C3_amended_rearm_at_initiation (s : PrimSchedState)
    (h : s.timerArmed = true) :
    (primStep s .timerFire).timerArmed = true ∧
    (primStep s .timerFire).pendingFetches = s.pendingFetches + 1 ∧
    (∀ geoPosition, (primStep s (.fetchSuccess geoPosition)).timerArmed
      = s.timerArmed) ∧
    (∀ error, (primStep s (.fetchError error)).timerArmed = s.timerArmed) := by
  refine ⟨?_, ?_, ?_, ?_⟩
  · simp [primStep, h]
  · simp [primStep, h]
  · intro geoPosition
    by_cases hp : 0 < s.pendingFetches <;> simp [primStep, hp]
  · intro error
    by_cases hp : 0 < s.pendingFetches <;> simp [primStep, hp]

/-- C3 amended witness at the initial scheduler state. -/
theorem C3_amended_rearm_at_initiation_witness :
    (primStep primInit .timerFire).timerArmed = true ∧
    (primStep primInit .timerFire).pendingFetches = primInit.pendingFetches + 1 ∧
    (∀ geoPosition, (primStep primInit (.fetchSuccess geoPosition)).timerArmed
      = primInit.timerArmed) ∧
    (∀ error, (primStep primInit (.fetchError error)).timerArmed
      = primInit.timerArmed) :=
  C3_amended_rearm_at_initiation primInit rfl

/-! ## Claim C4 -/

/-- C4 counterexample: the claim that all fields of the primary reading,
heading included, are overwritten from the incoming position is false: for a
prior reading with heading 7 and an incoming position whose heading is 3,
the reading after the success callback still has heading 7. -/
theorem C4_counterexample_heading_not_overwritten :
    ¬ ((processGeoSuccess { LocationReading.init with heading := 7 }
          { locationSource := "GNSS_RECEIVER", latitude := 1, longitude := 2,
            horizontalAccuracy := 3, altitude := 4, verticalAccuracy := 5,
            heading := 3 }).1.heading
        = (GeoPosition.heading
          { locationSource := "GNSS_RECEIVER", latitude := 1, longitude := 2,
            horizontalAccuracy := 3, altitude := 4, verticalAccuracy := 5,
            heading := 3 })) := by
  simp [processGeoSuccess, applyGeoPosition, LocationReading.init]

/-- C4 amended: for every successful position fetch, the six fields source,
latitude, longitude, horizontalAccuracy, altitude and verticalAccuracy are
overwritten from the incoming position before consumers are notified, the
notified reading being exactly the updated one; heading keeps its prior
value (it is updated only by the orientation path). -/
theorem C4_amended_full_replace_except_heading :
    ∀ (r : LocationReading) (geoPosition : GeoPosition),
      (processGeoSuccess r geoPosition).1.locationSource
        = geoPosition.locationSource ∧
      (processGeoSuccess r geoPosition).1.latitude = geoPosition.latitude ∧
      (processGeoSuccess r geoPosition).1.longitude = geoPosition.longitude ∧
      (processGeoSuccess r geoPosition).1.horizontalAccuracy
        = geoPosition.horizontalAccuracy ∧
      (processGeoSuccess r geoPosition).1.altitude = geoPosition.altitude ∧
      (processGeoSuccess r geoPosition).1.verticalAccuracy
        = geoPosition.verticalAccuracy ∧
      (processGeoSuccess r geoPosition).1.heading = r.heading ∧
      (processGeoSuccess r geoPosition).2 = (processGeoSuccess r geoPosition).1 := by
  intro r geoPosition
  simp [processGeoSuccess, applyGeoPosition]

/-! ## Claim C6 -/

/-- C6: a position-fetch error in the primary adapter and a parse failure on
an inbound secondary-source payload are each caught and logged with exactly
one log line per occurrence, mutate no field of the corresponding reading,
and trigger no notification; both handlers return normally. -/
theorem C6_failures_logged_without_mutation :
    ∀ (r : LocationReading) (error : String) (mk : MobileKitReading)
      (e : String),
      processGeoError r error
        = (r, ["processGeoPosition() error: " ++ error]) ∧
      (handleGPSLocationResponse mk (.err e)).1 = mk ∧
      (handleGPSLocationResponse mk (.err e)).2.1
        = ["startGPSLocationSubscription() - Error parsing GPS location data: "
            ++ e] ∧
      (handleGPSLocationResponse mk (.err e)).2.2 = false := by
  intro r error mk e
  simp [processGeoError, handleGPSLocationResponse]

/-! ## Claims C2 and C5: helper lemmas -/

/-- Under the pin invariant, removeMobileKitPin always ends with a cleared
reference and an empty pin list, keeping the map flag and the counter. -/
lemma removeMobileKitPin_inv (c : PinContext) (h : PinInv c) :
    removeMobileKitPin c
      = { hasMapComponent := c.hasMapComponent, mobileKitPin := none
          map := { nextId := c.map.nextId, pins := [] } } := by
  obtain ⟨hmf, pin, nid, pins⟩ := c
  obtain ⟨hpins, hids, hwired⟩ := h
  cases pin with
  | none =>
      simp only [Option.toList] at hpins
      simp [removeMobileKitPin, hpins]
  | some p =>
      have hm : hmf = true := hwired rfl
      simp only [Option.toList] at hpins
      simp [removeMobileKitPin, hm, removeMapPin, hpins]

/-- A cleared pin context satisfies the pin invariant. -/
lemma PinInv_cleared (hm : Bool) (nid : Nat) :
    PinInv { hasMapComponent := hm, mobileKitPin := none
             map := { nextId := nid, pins := [] } } := by
  refine ⟨rfl, ?_, ?_⟩ <;> simp

/-- In the active branch, with the invariant, updateMobileKitPin removes any
existing pin and creates a fresh one at the current coordinates. -/
lemma updateMobileKitPin_active (env : DisplayEnv) (mk : MobileKitReading)
    (c : PinContext) (hinv : PinInv c) (hm : c.hasMapComponent = true)
    (he : env.isEditor = false) (hen : env.mobileKitEnabled = true)
    (hz : ¬ (mk.latitude = 0 ∧ mk.longitude = 0)) :
    updateMobileKitPin env mk c
      = { hasMapComponent := c.hasMapComponent
          mobileKitPin := some { id := c.map.nextId
                                 longitude := mk.longitude
                                 latitude := mk.latitude }
          map := { nextId := c.map.nextId + 1
                   pins := [{ id := c.map.nextId, longitude := mk.longitude
                              latitude := mk.latitude }] } } := by
  obtain ⟨hpins, hids, hwired⟩ := hinv
  simp only [updateMobileKitPin, hm, he, hen, Bool.not_true, Bool.not_false,
    Bool.false_eq_true, if_false, if_true]
  rw [if_neg hz]
  cases hc : c.mobileKitPin with
  | none =>
      have hempty : c.map.pins = [] := by
        rw [hpins, hc]
        rfl
      simp [hc, createMapPin, hempty, hm]
  | some p =>
      have hfilter : c.map.pins.filter (fun q => q.id != p.id) = [] := by
        rw [hpins, hc]
        simp
      simp [hc, createMapPin, removeMapPin, hfilter, hm]

/-! ## Claim C2 -/

/-- C2: on every refresh, the detailed-panel secondary-source display is
recomputed by the 4-way branch: editor shows the fixed unavailable message
with the control disabled and no pin; mobile kit disabled shows the fixed
availability message with the control enabled and no pin; enabled with
coordinates exactly (0,0) shows the fixed no-data message with the control
disabled and clears any existing pin; enabled with non-zero coordinates
shows the formatted five-field text with the control enabled. -/
theorem C2_four_way_display_branch :
    ∀ (env : DisplayEnv) (mk : MobileKitReading) (c : PinContext),
      PinInv c →
      (env.isEditor = true →
        (updateMobileKitText env mk c).1
          = { mobileKitText := "Mobile Kit unavailable in editor"
              startMobileKitButtonInactive := true
              startMobileKitButtonTextColor := lightGreyColor } ∧
        (updateMobileKitText env mk c).2.mobileKitPin = none) ∧
      (env.isEditor = false → env.mobileKitEnabled = false →
        (updateMobileKitText env mk c).1
          = { mobileKitText := "Mobile Kit available on device"
              startMobileKitButtonInactive := false
              startMobileKitButtonTextColor := whiteTextColor } ∧
        (updateMobileKitText env mk c).2.mobileKitPin = none) ∧
      (env.isEditor = false → env.mobileKitEnabled = true →
        mk.latitude = 0 → mk.longitude = 0 →
        (updateMobileKitText env mk c).1
          = { mobileKitText := "No Mobile Kit data"
              startMobileKitButtonInactive := true
              startMobileKitButtonTextColor := lightGreyColor } ∧
        (updateMobileKitText env mk c).2.mobileKitPin = none) ∧
      (env.isEditor = false → env.mobileKitEnabled = true →
        ¬ (mk.latitude = 0 ∧ mk.longitude = 0) →
        (updateMobileKitText env mk c).1
          = { mobileKitText := mobileKitDataText mk
              startMobileKitButtonInactive := false
              startMobileKitButtonTextColor := lightGreyColor }) := by
  intro env mk c hinv
  have hrm := removeMobileKitPin_inv c hinv
  refine ⟨?_, ?_, ?_, ?_⟩
  · intro he
    constructor
    · simp [updateMobileKitText, he]
    · simp [updateMobileKitText, he, hrm]
  · intro he hen
    constructor
    · simp [updateMobileKitText, he, hen]
    · simp [updateMobileKitText, he, hen, hrm]
  · intro he hen hlat hlon
    constructor
    · simp [updateMobileKitText, he, hen, hlat, hlon]
    · simp [updateMobileKitText, he, hen, hlat, hlon, hrm]
  · intro he hen hz
    simp [updateMobileKitText, he, hen, hz]

/-- C2 witness: the scenario of the claim — mobile kit enabled on device with
coordinates (0,0) shows the fixed no-data message, disables the control, and
clears a previously existing pin. -/
theorem C2_four_way_display_branch_witness :
    (updateMobileKitText { isEditor := false, mobileKitEnabled := true }
        MobileKitReading.init
        { hasMapComponent := true
          mobileKitPin := some { id := 0, longitude := 0, latitude := 0 }
          map := { nextId := 1
                   pins := [{ id := 0, longitude := 0, latitude := 0 }] } }).1
      = { mobileKitText := "No Mobile Kit data"
          startMobileKitButtonInactive := true
          startMobileKitButtonTextColor := lightGreyColor } ∧
    (updateMobileKitText { isEditor := false, mobileKitEnabled := true }
        MobileKitReading.init
        { hasMapComponent := true
          mobileKitPin := some { id := 0, longitude := 0, latitude := 0 }
          map := { nextId := 1
                   pins := [{ id := 0, longitude := 0, latitude := 0 }] } }).2.mobileKitPin
      = none := by
  have hinv : PinInv
      { hasMapComponent := true
        mobileKitPin := some { id := 0, longitude := 0, latitude := 0 }
        map := { nextId := 1
                 pins := [{ id := 0, longitude := 0, latitude := 0 }] } } := by
    refine ⟨rfl, ?_, fun _ => rfl⟩
    intro p hp
    simp only [List.mem_singleton] at hp
    subst hp
    exact Nat.zero_lt_one
  exact (C2_four_way_display_branch { isEditor := false, mobileKitEnabled := true }
    MobileKitReading.init _ hinv).2.2.1 rfl rfl rfl rfl

/-! ## Claim C5 -/

/-- C5: for every call of the map-pin refresh under the pin invariant: when
the display state says no data (editor, mobile kit disabled, or coordinates
(0,0)), any existing pin is removed and the reference cleared; otherwise an
existing pin is unconditionally removed and a fresh one, distinct from any
previous handle, is created at the current coordinates, even when the
coordinates are unchanged; afterwards the invariant still holds and at most
one pin exists. -/
theorem C5_pin_refresh_characterisation :
    ∀ (env : DisplayEnv) (mk : MobileKitReading) (c : PinContext),
      PinInv c →
      PinInv (updateMobileKitPin env mk c) ∧
      (updateMobileKitPin env mk c).map.pins.length ≤ 1 ∧
      ((env.isEditor = true ∨ env.mobileKitEnabled = false ∨
          (mk.latitude = 0 ∧ mk.longitude = 0)) →
        (updateMobileKitPin env mk c).mobileKitPin = none ∧
        (updateMobileKitPin env mk c).map.pins = []) ∧
      (env.isEditor = false → env.mobileKitEnabled = true →
        ¬ (mk.latitude = 0 ∧ mk.longitude = 0) → c.hasMapComponent = true →
        ∃ p, (updateMobileKitPin env mk c).mobileKitPin = some p ∧
          p.longitude = mk.longitude ∧ p.latitude = mk.latitude ∧
          (updateMobileKitPin env mk c).map.pins = [p] ∧
          (∀ q, c.mobileKitPin = some q → p ≠ q)) := by
  intro env mk c hinv
  by_cases hm : c.hasMapComponent = true
  · by_cases hact : env.isEditor = false ∧ env.mobileKitEnabled = true ∧
        ¬ (mk.latitude = 0 ∧ mk.longitude = 0)
    · obtain ⟨he, hen, hz⟩ := hact
      have hres := updateMobileKitPin_active env mk c hinv hm he hen hz
      obtain ⟨hpins, hids, hwired⟩ := hinv
      refine ⟨?_, ?_, ?_, ?_⟩
      · rw [hres]
        refine ⟨rfl, ?_, fun _ => hm⟩
        intro p hp
        simp only [List.mem_singleton] at hp
        subst hp
        exact Nat.lt_succ_self _
      · rw [hres]
        simp
      · intro hnd
        rcases hnd with hnd | hnd | hnd
        · rw [hnd] at he
          exact absurd he (by simp)
        · rw [hnd] at hen
          exact absurd hen (by simp)
        · exact absurd hnd hz
      · intro _ _ _ _
        refine ⟨{ id := c.map.nextId, longitude := mk.longitude
                  latitude := mk.latitude }, ?_, rfl, rfl, ?_, ?_⟩
        · rw [hres]
        · rw [hres]
        · intro q hq hpq
          have hmem : q ∈ c.map.pins := by
            rw [hpins, hq]
            exact List.mem_singleton.mpr rfl
          have hlt := hids q hmem
          have : q.id = c.map.nextId := by
            rw [← hpq]
          omega
    · have hnd : env.isEditor = true ∨ env.mobileKitEnabled = false ∨
          (mk.latitude = 0 ∧ mk.longitude = 0) := by
        by_cases h1 : env.isEditor = true
        · exact Or.inl h1
        · by_cases h2 : env.mobileKitEnabled = false
          · exact Or.inr (Or.inl h2)
          · refine Or.inr (Or.inr ?_)
            by_contra h3
            exact hact ⟨by simpa using h1, by simpa using h2, h3⟩
      have hrm := removeMobileKitPin_inv c hinv
      have hres : updateMobileKitPin env mk c = removeMobileKitPin c := by
        rcases hnd with h | h | h
        · simp [updateMobileKitPin, hm, h]
        · simp [updateMobileKitPin, hm, h]
        · simp only [updateMobileKitPin, hm, Bool.not_true, Bool.false_eq_true,
            if_false]
          rw [if_pos h]
          split_ifs <;> rfl
      rw [hres, hrm]
      refine ⟨PinInv_cleared _ _, by simp, fun _ => ⟨rfl, rfl⟩, ?_⟩
      · intro he hen hz _
        exact absurd ⟨he, hen, hz⟩ hact
  · have hpin : c.mobileKitPin = none := by
      obtain ⟨hpins, hids, hwired⟩ := hinv
      cases hc : c.mobileKitPin with
      | none => rfl
      | some p => exact absurd (hwired (by rw [hc]; rfl)) hm
    have hempty : c.map.pins = [] := by
      obtain ⟨hpins, _, _⟩ := hinv
      rw [hpins, hpin]
      rfl
    have hres : updateMobileKitPin env mk c = c := by
      simp only [updateMobileKitPin]
      rw [if_pos]
      simp [hm]
    rw [hres]
    refine ⟨hinv, by simp [hempty], fun _ => ⟨hpin, hempty⟩, ?_⟩
    intro _ _ _ hm2
    exact absurd hm2 hm

/-- C5 witness: with the invariant holding, an active refresh at unchanged
coordinates still replaces the existing pin with a fresh handle. -/
theorem C5_pin_refresh_characterisation_witness :
    PinInv { hasMapComponent := true
             mobileKitPin := some { id := 0, longitude := 2, latitude := 1 }
             map := { nextId := 1
                      pins := [{ id := 0, longitude := 2, latitude := 1 }] } } ∧
    (updateMobileKitPin { isEditor := false, mobileKitEnabled := true }
        { latitude := 1, longitude := 2, horizontalAccuracy := 0, altitude := 0
          verticalAccuracy := 0 }
        { hasMapComponent := true
          mobileKitPin := some { id := 0, longitude := 2, latitude := 1 }
          map := { nextId := 1
                   pins := [{ id := 0, longitude := 2, latitude := 1 }] } }).map.pins.length
      ≤ 1 := by
  have hinv : PinInv
      { hasMapComponent := true
        mobileKitPin := some { id := 0, longitude := 2, latitude := 1 }
        map := { nextId := 1
                 pins := [{ id := 0, longitude := 2, latitude := 1 }] } } := by
    refine ⟨rfl, ?_, fun _ => rfl⟩
    intro p hp
    simp only [List.mem_singleton] at hp
    subst hp
    exact Nat.zero_lt_one
  refine ⟨hinv, ?_⟩
  exact (C5_pin_refresh_characterisation
    { isEditor := false, mobileKitEnabled := true }
    { latitude := 1, longitude := 2, horizontalAccuracy := 0, altitude := 0
      verticalAccuracy := 0 } _ hinv).2.1

/-! ## Claim C7 -/

/-- With all five images configured, disabling them all yields all enabled
flags false, with one write per image. -/
lemma disableAll_wired (a b c d e : Bool) :
    disableAllGPSStatusImages
      { white := some a, red := some b, blue := some c, yellow := some d
        green := some e }
      = ({ white := some false, red := some false, blue := some false
           yellow := some false, green := some false },
         [(.white, false), (.red, false), (.blue, false), (.yellow, false),
          (.green, false)]) := by
  rfl

/-- C7: the short-label mapping is total with values in the five display
labels, and after a status-icon update triggered by a source change, with all
five images configured, exactly one status icon is enabled and every other
icon is disabled. -/
theorem C7_total_mapping_exactly_one_icon :
    (∀ locationSource : String,
      getShortLocationSource locationSource
        ∈ ["Not available", "GNSS / GPS", "WiFi", "Fused", "Unknown"]) ∧
    (∀ (currentLocationSource : String) (st : StatusIndicatorState),
      allWired st.images →
      currentLocationSource ≠ st.lastLocationSource →
      enabledIconCount
        (updateGPSStatusIndicator (some currentLocationSource) st).1.images
        = 1 ∧
      (updateGPSStatusIndicator (some currentLocationSource) st).1.images.get
        (getGPSStatusImage currentLocationSource) = some true ∧
      (∀ slot, slot ≠ getGPSStatusImage currentLocationSource →
        (updateGPSStatusIndicator (some currentLocationSource) st).1.images.get
          slot = some false)) := by
  constructor
  · intro locationSource
    unfold getShortLocationSource
    split_ifs <;> simp
  · intro src st hw hne
    obtain ⟨last, im⟩ := st
    obtain ⟨w, r, bl, y, g⟩ := im
    obtain ⟨hw1, hw2, hw3, hw4, hw5⟩ := hw
    obtain ⟨a, ha⟩ := Option.isSome_iff_exists.mp hw1
    obtain ⟨b, hb⟩ := Option.isSome_iff_exists.mp hw2
    obtain ⟨c, hc⟩ := Option.isSome_iff_exists.mp hw3
    obtain ⟨d, hd⟩ := Option.isSome_iff_exists.mp hw4
    obtain ⟨e, he⟩ := Option.isSome_iff_exists.mp hw5
    subst ha hb hc hd he
    simp only [updateGPSStatusIndicator, disableAll_wired] at hne ⊢
    rw [if_neg hne]
    rcases hslot : getGPSStatusImage src with _ | _ | _ | _ | _ <;>
      · refine ⟨by rfl, by rfl, ?_⟩
        intro slot hs
        cases slot <;> first | rfl | exact absurd rfl hs

/-- C7 witness: a concrete source change from the initial empty source to
GNSS_RECEIVER on fully wired images enables exactly the blue icon. -/
theorem C7_total_mapping_exactly_one_icon_witness :
    getShortLocationSource "GNSS_RECEIVER"
      ∈ ["Not available", "GNSS / GPS", "WiFi", "Fused", "Unknown"] ∧
    (enabledIconCount
      (updateGPSStatusIndicator (some "GNSS_RECEIVER")
        { lastLocationSource := ""
          images := { white := some true, red := some false
                      blue := some false, yellow := some false
                      green := some false } }).1.images = 1 ∧
     (updateGPSStatusIndicator (some "GNSS_RECEIVER")
        { lastLocationSource := ""
          images := { white := some true, red := some false
                      blue := some false, yellow := some false
                      green := some false } }).1.images.get
        (getGPSStatusImage "GNSS_RECEIVER") = some true) := by
  refine ⟨C7_total_mapping_exactly_one_icon.1 "GNSS_RECEIVER", ?_, ?_⟩
  · exact (C7_total_mapping_exactly_one_icon.2 "GNSS_RECEIVER"
      { lastLocationSource := ""
        images := { white := some true, red := some false, blue := some false
                    yellow := some false, green := some false } }
      (by constructor <;> simp [allWired]) (by simp)).1
  · exact (C7_total_mapping_exactly_one_icon.2 "GNSS_RECEIVER"
      { lastLocationSource := ""
        images := { white := some true, red := some false, blue := some false
                    yellow := some false, green := some false } }
      (by constructor <;> simp [allWired]) (by simp)).2.1

/-! ## Claim C8 -/

/-- After any call of updateGPSStatusIndicator with a present manager, the
cached last source equals the current source. -/
lemma updateGPSStatusIndicator_last (src : String) (st : StatusIndicatorState) :
    (updateGPSStatusIndicator (some src) st).1.lastLocationSource = src := by
  simp only [updateGPSStatusIndicator]
  by_cases h : src = st.lastLocationSource
  · rw [if_pos h]
    exact h.symm
  · rw [if_neg h]
    split_ifs <;> rfl

/-- When the reported source equals the cached one, updateGPSStatusIndicator
skips entirely: no state change, no writes. -/
lemma updateGPSStatusIndicator_skip (src : String) (st : StatusIndicatorState)
    (h : st.lastLocationSource = src) :
    updateGPSStatusIndicator (some src) st = (st, []) := by
  simp only [updateGPSStatusIndicator]
  rw [if_pos h.symm]

/-- C8: re-rendering the compact panel a second time with the primary source
unchanged since the previous render performs no icon-visibility writes and
leaves the indicator state untouched. -/
theorem C8_second_render_writes_nothing :
    ∀ (locationManager : Option String) (st : StatusIndicatorState),
      (updateGPSStatusIndicator locationManager
        (updateGPSStatusIndicator locationManager st).1).2 = [] ∧
      (updateGPSStatusIndicator locationManager
        (updateGPSStatusIndicator locationManager st).1).1
        = (updateGPSStatusIndicator locationManager st).1 := by
  intro locationManager st
  match locationManager with
  | none => exact ⟨rfl, rfl⟩
  | some src =>
      have hskip := updateGPSStatusIndicator_skip src
        (updateGPSStatusIndicator (some src) st).1
        (updateGPSStatusIndicator_last src st)
      rw [hskip]
      exact ⟨rfl, rfl⟩

/-! ## Claim C10 -/

/-- C10: the compact-panel cache starts equal to the primary reading's
initial source (both the empty string), so every frame tick until the source
first differs from the empty string performs no icon-visibility writes and
leaves every icon, the white one included, exactly as it was. -/
theorem C10_no_writes_until_source_changes :
    LocationReading.init.locationSource = lastLocationSourceInit ∧
    (∀ (n : Nat) (images : GPSStatusImages),
      iterateGPSStatusUpdates (some "") n
        { lastLocationSource := lastLocationSourceInit, images := images }
        = ({ lastLocationSource := lastLocationSourceInit, images := images },
           [])) := by
  constructor
  · rfl
  · intro n images
    induction n with
    | zero => rfl
    | succ n ih =>
        simp only [iterateGPSStatusUpdates]
        rw [updateGPSStatusIndicator_skip "" _ rfl]
        simpa using ih

/-! ## Claim C9 -/

/-- C9 counterexample: with the content-manager reference unconfigured,
MobileKitManager.newMobileKitDataAvailable dereferences the missing element
instead of being skipped behind a null check with a warning; and the guarded
LocationManager counterpart skips without logging any warning. -/
theorem C9_counterexample_unguarded_dereference :
    newMobileKitDataAvailableOp none = UIOpResult.nullDeref ∧
    newLocationManagerDataAvailableOp none = UIOpResult.skippedSilently :=
  ⟨rfl, rfl⟩

/-- C9 amended: per operation, positionUI, detailsButtonPressed and
closeButtonPressed guard their primary referenced element with a null check
and a warning log; newLocationManagerDataAvailable, updateLocationText and
updateMobileKitPin guard with a silent skip and no warning; but
newMobileKitDataAvailable, updateMobileKitText, and the content-manager
reference inside detailsButtonPressed are unguarded and dereference the
missing element. -/
theorem C9_amended_per_operation_null_behaviour :
    positionUIOp none = UIOpResult.skippedWithWarning ∧
    detailsButtonPressedOp none none = UIOpResult.skippedWithWarning ∧
    closeButtonPressedOp none = UIOpResult.skippedWithWarning ∧
    newLocationManagerDataAvailableOp none = UIOpResult.skippedSilently ∧
    (∀ t, updateLocationTextOp none t = UIOpResult.skippedSilently) ∧
    (∀ m, updateLocationTextOp m none = UIOpResult.skippedSilently) ∧
    updateMobileKitPinOp none = UIOpResult.skippedSilently ∧
    newMobileKitDataAvailableOp none = UIOpResult.nullDeref ∧
    updateMobileKitTextOp none = UIOpResult.nullDeref ∧
    detailsButtonPressedOp (some ()) none = UIOpResult.nullDeref ∧
    positionUIOp (some ()) = UIOpResult.performed ∧
    newLocationManagerDataAvailableOp (some ()) = UIOpResult.performed ∧
    newMobileKitDataAvailableOp (some ()) = UIOpResult.performed := by
  refine ⟨rfl, rfl, rfl, rfl, ?_, ?_, rfl, rfl, rfl, rfl, rfl, rfl, rfl⟩
  · intro t
    cases t <;> rfl
  · intro m
    cases m <;> rfl

end SnapOSLocationTools
